import Mathlib

/-!
Shallow embedding of the session/config overlay core of an LLM chat client
(`src/config/mod.rs`). Pure functions of the Rust code become Lean functions;
`&mut self` methods become state-passing functions returning the new state
together with an optional error message (mirroring `anyhow::Result` where the
mutated receiver survives an early `?` return). File-system effects are made
explicit through an `FS` state record. `f64` values carry no floating-point
arithmetic in this core (they are only stored, compared to zero and printed),
so they are embedded as rationals.
-/

/-- Modelled from the spec: the external model-catalog collaborator supplies
`Model` descriptors (identifier, client name, model name, token-limit
metadata); `crate::client` is outside this subsystem. -/
structure Model where
  id : String
  client_name : String
  name : String
  max_input_tokens : Option Nat
  max_output_tokens : Option Int
deriving DecidableEq, Repr

instance : Inhabited Model := ⟨⟨"", "", "", none, none⟩⟩

/-- Modelled from the spec: catalog lookup by identifier, returning a model
descriptor or not-found (`Model::find`). -/
def Model.find (models : List Model) (value : String) : Option Model :=
  models.find? (fun m => m.id == value)

/-- Modelled from the spec: `Model::set_max_tokens` stores the requested
max-output-tokens value on the model descriptor. -/
def Model.set_max_tokens (m : Model) (value : Option Int) (_override : Bool) : Model :=
  { m with max_output_tokens := value }

/-- Modelled from the spec: `Input` (src/config/input.rs is not under src/);
only its rendered text and one-line summary matter to this core. -/
structure Input where
  text : String
deriving DecidableEq, Repr

def Input.summary (i : Input) : String := i.text

def Input.render (i : Input) : String := i.text

/-- Modelled from the spec: the spec does not describe patch text, so clearing
it does not change the modelled input. -/
def Input.clear_patch_text (i : Input) : Input := i

/-- Modelled from the spec: `Session` (src/config/session.rs is not under
src/): a named overlay holding its own copy of model/temperature/top-p/
save-toggle plus message history, a dirty flag, a compressing flag, and the
model input-window metadata used for token accounting. -/
structure Session where
  name : String
  model_id : String
  temperature : Option ℚ
  top_p : Option ℚ
  save_session : Option Bool
  max_input_tokens : Option Nat
  messages : List (Input × String)
  dirty : Bool
  compressing : Bool
deriving DecidableEq, Repr

/-- Modelled from the spec: the reserved name of the unsaved/temporary
session. -/
def TEMP_SESSION_NAME : String := "temp"

def Session.is_empty (s : Session) : Bool := s.messages.isEmpty

/-- Modelled from the spec: session setters mutate the overlay copy and mark
the session dirty. -/
def Session.set_temperature (s : Session) (v : Option ℚ) : Session :=
  { s with temperature := v, dirty := true }

def Session.set_top_p (s : Session) (v : Option ℚ) : Session :=
  { s with top_p := v, dirty := true }

def Session.set_save_session (s : Session) (v : Option Bool) : Session :=
  { s with save_session := v, dirty := true }

def Session.set_model (s : Session) (m : Model) : Session :=
  { s with model_id := m.id, max_input_tokens := m.max_input_tokens, dirty := true }

/-- Modelled from the spec: append-only message history; any mutation marks
the session dirty. -/
def Session.add_message (s : Session) (input : Input) (output : String) : Session :=
  { s with messages := s.messages ++ [(input, output)], dirty := true }

def Session.clear_messages (s : Session) : Session :=
  { s with messages := [], dirty := true }

def Session.user_messages_len (s : Session) : Nat := s.messages.length

/-- Modelled from the spec: token accounting recomputed from history plus the
model input-window metadata (consumed tokens and percent of window). -/
def Session.consumed_tokens (s : Session) : Nat :=
  (s.messages.map (fun p => p.1.render.length + p.2.length)).sum

def Session.tokens_and_percent (s : Session) : Nat × ℚ :=
  let tokens := s.consumed_tokens
  let percent : ℚ :=
    match s.max_input_tokens with
    | some m => if m = 0 then 0 else (tokens : ℚ) * 100 / (m : ℚ)
    | none => 0
  (tokens, percent)

/-- The file-system state this core touches: the sessions directory (one
serialized session per name) and the append-only message log file (`none`
when the file does not exist yet). -/
structure FS where
  session_files : List (String × Session)
  messages_file : Option (List String)
deriving DecidableEq, Repr

def FS.log_entries (fs : FS) : List String := fs.messages_file.getD []

def FS.session_file_exists (fs : FS) (name : String) : Bool :=
  (fs.session_files.lookup name).isSome

def FS.remove_session_file (fs : FS) (name : String) : FS :=
  { fs with session_files := fs.session_files.filter (fun p => p.1 != name) }

def FS.write_session_file (fs : FS) (s : Session) : FS :=
  { fs with session_files :=
      (s.name, s) :: fs.session_files.filter (fun p => p.1 != s.name) }

/-- `open_message_file` (`OpenOptions::create(true).append(true)`): creates
the message log file when absent, otherwise keeps its contents. -/
def FS.open_message_file (fs : FS) : FS :=
  { fs with messages_file := some fs.log_entries }

def FS.append_log (fs : FS) (entry : String) : FS :=
  { fs with messages_file := some (fs.log_entries ++ [entry]) }

/-- Modelled from the spec: effective save-session resolution for the exit
persistence pass; the session inherited the Settings toggle at creation, the
built-in default is to persist. On exit the session is written to disk when
dirty unless the effective toggle resolves to false. -/
def Session.exit (s : Session) (fs : FS) : FS :=
  if s.dirty && s.save_session.getD true then
    fs.write_session_file { s with dirty := false }
  else
    fs

/-- `Config`: settings-store scalars plus the optional active session, the
live model reference and the last-message cache (`Function` and the client
configs are external; the catalog of chat models derivable from the client
configs is embedded directly as `clients`). -/
structure Config where
  model_id : String
  temperature : Option ℚ
  top_p : Option ℚ
  save : Bool
  save_session : Option Bool
  function_calling : Bool
  clients : List Model
  session : Option Session
  model : Model
  last_message : Option (Input × String)
deriving DecidableEq, Repr

/-- Modelled from the spec: `list_chat_models` enumerates the chat models
available from the configured clients. -/
def list_chat_models (c : Config) : List Model := c.clients

namespace StateFlags

def ROLE : Nat := 1 <<< 0
def SESSION_EMPTY : Nat := 1 <<< 1
def SESSION : Nat := 1 <<< 2
def RAG : Nat := 1 <<< 3
def empty : Nat := 0

/-- bitflags `contains`: all bits of `f` are set in `flags`. -/
def contains (flags f : Nat) : Bool := flags &&& f == f

end StateFlags

namespace Config

def state (c : Config) : Nat :=
  match c.session with
  | some session =>
    if session.is_empty then
      StateFlags.empty ||| StateFlags.SESSION_EMPTY
    else
      StateFlags.empty ||| StateFlags.SESSION
  | none => StateFlags.empty

def set_temperature (c : Config) (value : Option ℚ) : Config :=
  match c.session with
  | some session => { c with session := some (session.set_temperature value) }
  | none => { c with temperature := value }

def set_top_p (c : Config) (value : Option ℚ) : Config :=
  match c.session with
  | some session => { c with session := some (session.set_top_p value) }
  | none => { c with top_p := value }

def set_save_session (c : Config) (value : Option Bool) : Config :=
  match c.session with
  | some session => { c with session := some (session.set_save_session value) }
  | none => { c with save_session := value }

def set_model (c : Config) (value : String) : Config × Option String :=
  match Model.find (list_chat_models c) value with
  | none => (c, some ("No model " ++ value))
  | some model =>
    let c :=
      match c.session with
      | some session => { c with session := some (session.set_model model) }
      | none => c
    ({ c with model := model }, none)

def set_model_id (c : Config) : Config := { c with model_id := c.model.id }

def restore_model (c : Config) : Config × Option String :=
  c.set_model c.model_id

/-- The session-aware read-back used by `system_info`: the session temperature
when a session is active, the Settings temperature otherwise. -/
def effective_temperature (c : Config) : Option ℚ :=
  match c.session with
  | some session => session.temperature
  | none => c.temperature

def effective_top_p (c : Config) : Option ℚ :=
  match c.session with
  | some session => session.top_p
  | none => c.top_p

/-- The transcript entry formatted by `save_message` when writing to the
message log. -/
def message_entry (timestamp : String) (input : Input) (output : String) : String :=
  "# CHAT: " ++ input.summary ++ " [" ++ timestamp ++ "]\n" ++ input.render
    ++ "\n--------\n" ++ output ++ "\n--------\n\n"

/-- `Config::save_message`: clear the patch text, update the last-message
cache, delegate to the session when one is active, otherwise append to the
message log gated on the save toggle and a non-empty output. The wall-clock
timestamp is passed explicitly. -/
def save_message (c : Config) (fs : FS) (timestamp : String) (input : Input)
    (output : String) (_tool_call_results : List String) : Config × FS :=
  let input := input.clear_patch_text
  let c := { c with last_message := some (input, output) }
  match c.session with
  | some session =>
    ({ c with session := some (session.add_message input output) }, fs)
  | none =>
    if !c.save then (c, fs)
    else
      let fs := fs.open_message_file
      if output.isEmpty || !c.save then (c, fs)
      else (c, fs.append_log (message_entry timestamp input output))

end Config

/-- Split a character list at every character satisfying `p`, keeping empty
pieces (the structural counterpart of `String.split`). -/
def splitChars (p : Char → Bool) : List Char → List (List Char)
  | [] => [[]]
  | ch :: rest =>
    if p ch then [] :: splitChars p rest
    else
      match splitChars p rest with
      | [] => [[ch]]
      | piece :: pieces => (ch :: piece) :: pieces

/-- `str::split_whitespace`: whitespace-separated tokens, empty pieces
dropped. -/
def split_whitespace (data : String) : List String :=
  ((splitChars Char.isWhitespace data.toList).filter
      (fun piece => !piece.isEmpty)).map (fun piece => String.mk piece)

/-- `bool::from_str`: accepts exactly "true" and "false". -/
def parseBool (value : String) : Option Bool :=
  if value == "true" then some true
  else if value == "false" then some false
  else none

/-- Decimal parse for the f64-valued settings (sign, digits, optional
fractional part); embedded over the rationals. -/
def parseDecimal (value : String) : Option ℚ :=
  let (neg, body) :=
    if value.startsWith "-" then (true, value.drop 1) else (false, value)
  let mk (q : ℚ) : Option ℚ := some (if neg then -q else q)
  match body.split (fun ch => ch == '.') with
  | [whole] =>
    match whole.toNat? with
    | some n => mk (n : ℚ)
    | none => none
  | [whole, frac] =>
    match whole.toNat?, frac.toNat? with
    | some w, some f => mk ((w : ℚ) + (f : ℚ) / ((10 : ℚ) ^ frac.length))
    | _, _ => none
  | _ => none

/-- `parse_value`: the literal token "null" clears the setting; otherwise the
value must parse (the `FromStr` instance is passed explicitly). -/
def parse_value (parse : String → Option α) (value : String) :
    Except String (Option α) :=
  if value == "null" then Except.ok none
  else
    match parse value with
    | some v => Except.ok (some v)
    | none => Except.error ("Invalid value " ++ value)

namespace Config

/-- `Config::update`: single-string `<key> <value>` command dispatching to the
Settings store or the session-aware setters. -/
def update (c : Config) (data : String) : Config × Option String :=
  match split_whitespace data with
  | [key, value] =>
    match key with
    | "max_output_tokens" =>
      match parse_value String.toInt? value with
      | Except.error e => (c, some e)
      | Except.ok v => ({ c with model := c.model.set_max_tokens v true }, none)
    | "temperature" =>
      match parse_value parseDecimal value with
      | Except.error e => (c, some e)
      | Except.ok v => (c.set_temperature v, none)
    | "top_p" =>
      match parse_value parseDecimal value with
      | Except.error e => (c, some e)
      | Except.ok v => (c.set_top_p v, none)
    | "function_calling" =>
      match parseBool value with
      | none => (c, some "Invalid value")
      | some v => ({ c with function_calling := v }, none)
    | "save" =>
      match parseBool value with
      | none => (c, some "Invalid value")
      | some v => ({ c with save := v }, none)
    | "save_session" =>
      match parse_value parseBool value with
      | Except.error e => (c, some e)
      | Except.ok v => (c.set_save_session v, none)
    | _ => (c, some ("Unknown key " ++ key))
  | _ => (c, some "Usage: .set <key> <value>. If value is null, unset key.")

end Config

/-- Modelled from the spec: `Session::new` creates an empty, non-dirty session
inheriting the current settings (live model, temperature, top-p, save-session
toggle) as its initial overlay. -/
def Session.new (c : Config) (name : String) : Session :=
  { name := name
    model_id := c.model.id
    temperature := c.temperature
    top_p := c.top_p
    save_session := c.save_session
    max_input_tokens := c.model.max_input_tokens
    messages := []
    dirty := false
    compressing := false }

/-- Modelled from the spec: `Session::load` deserializes the on-disk session
of that name (the name argument wins over the stored one). -/
def Session.load (name : String) (stored : Session) : Session :=
  { stored with name := name }

namespace Config

/-- `Config::use_session`: fails when a session is already active; otherwise
creates a temporary session (after removing a stale temporary-session file),
creates a fresh named session, or loads an existing one and re-resolves its
stored model identifier; finally may seed an empty session with the cached
last exchange, gated on the interactive confirmation answer `ans`. An error
return carries the state as mutated up to the failing step, as a `?` on
`&mut self` does. -/
def use_session (c : Config) (fs : FS) (session : Option String) (ans : Bool) :
    Config × FS × Option String :=
  if c.session.isSome then
    (c, fs,
      some "Already in a session, please run .exit session first to exit the current session.")
  else
    let step : Config × FS × Option String :=
      match session with
      | none =>
        let fs :=
          if fs.session_file_exists TEMP_SESSION_NAME then
            fs.remove_session_file TEMP_SESSION_NAME
          else fs
        ({ c with session := some (Session.new c TEMP_SESSION_NAME) }, fs, none)
      | some name =>
        match fs.session_files.lookup name with
        | none => ({ c with session := some (Session.new c name) }, fs, none)
        | some stored =>
          let loaded := Session.load name stored
          let model_id := loaded.model_id
          let c := { c with session := some loaded }
          match c.set_model model_id with
          | (c, some e) => (c, fs, some e)
          | (c, none) => (c, fs, none)
    match step with
    | (c, fs, some e) => (c, fs, some e)
    | (c, fs, none) =>
      match c.session with
      | some session =>
        if session.is_empty then
          match c.last_message with
          | some (input, output) =>
            if ans then
              ({ c with session := some (session.add_message input output) }, fs, none)
            else (c, fs, none)
          | none => (c, fs, none)
        else (c, fs, none)
      | none => (c, fs, none)

/-- `Config::exit_session`: takes the session out unconditionally, runs its
persistence pass, clears the last-message cache and re-resolves the
snapshotted model identifier (an error there is surfaced after the session is
already gone). -/
def exit_session (c : Config) (fs : FS) : Config × FS × Option String :=
  match c.session with
  | none => (c, fs, none)
  | some session =>
    let c := { c with session := none }
    let fs := session.exit fs
    let c := { c with last_message := none }
    match c.restore_model with
    | (c, e) => (c, fs, e)

/-- `HashMap::insert` on a string-keyed association list. -/
def ctx_insert (m : List (String × String)) (k v : String) :
    List (String × String) :=
  (k, v) :: m.filter (fun p => p.1 != k)

/-- `Config::generate_prompt_context`: pure derivation of the string-keyed
context consumed by the template renderer. -/
def generate_prompt_context (c : Config) : List (String × String) :=
  let output : List (String × String) := []
  let output := ctx_insert output "model" c.model.id
  let output := ctx_insert output "client_name" c.model.client_name
  let output := ctx_insert output "model_name" c.model.name
  let output :=
    ctx_insert output "max_input_tokens" (toString (c.model.max_input_tokens.getD 0))
  let output :=
    match c.temperature with
    | some temperature =>
      if temperature != 0 then ctx_insert output "temperature" (toString temperature)
      else output
    | none => output
  let output :=
    match c.top_p with
    | some top_p =>
      if top_p != 0 then ctx_insert output "top_p" (toString top_p)
      else output
    | none => output
  let output := if c.save then ctx_insert output "save" "true" else output
  let output :=
    match c.session with
    | some session =>
      let output := ctx_insert output "session" session.name
      let output := ctx_insert output "dirty" (toString session.dirty)
      let tp := session.tokens_and_percent
      let output := ctx_insert output "consume_tokens" (toString tp.1)
      let output := ctx_insert output "consume_percent" (toString tp.2)
      ctx_insert output "user_messages_len" (toString session.user_messages_len)
    | none => output
  output

end Config


/-! ## Concrete example states used by witnesses and counterexamples -/

def exampleModel : Model :=
  { id := "openai:gpt-4", client_name := "openai", name := "gpt-4",
    max_input_tokens := some 8192, max_output_tokens := some 4096 }

def exampleConfig : Config :=
  { model_id := "openai:gpt-4", temperature := none, top_p := none,
    save := true, save_session := none, function_calling := false,
    clients := [exampleModel], session := none, model := exampleModel,
    last_message := none }

def exampleSession : Session := Session.new exampleConfig "work"

def exampleActiveConfig : Config :=
  { exampleConfig with session := some exampleSession }

def exampleInput : Input := { text := "hello" }

def exampleFS : FS := { session_files := [], messages_file := none }

/-! ## C2 -/

/-- C2: `use_session` called while a session is already active fails with the
already-in-a-session error and returns the config (session history, dirty
flag, overlay settings included) and the file system exactly as they were. -/
theorem use_session_already_active (c : Config) (fs : FS)
    (arg : Option String) (ans : Bool) (h : c.session.isSome = true) :
    Config.use_session c fs arg ans
      = (c, fs,
          some "Already in a session, please run .exit session first to exit the current session.") := by
  simp [Config.use_session, h]

/-- C2 witness: a concrete active-session config is left untouched. -/
theorem use_session_already_active_witness :
    Config.use_session exampleActiveConfig exampleFS (some "other") false
      = (exampleActiveConfig, exampleFS,
          some "Already in a session, please run .exit session first to exit the current session.") :=
  use_session_already_active exampleActiveConfig exampleFS (some "other") false rfl

/-! ## C8 -/

/-- C8: the flag set returned by `state()` never contains both the
session-present and the session-empty flag; with an active session it equals
exactly `SESSION_EMPTY` (history empty) or exactly `SESSION` (otherwise), and
with no active session it is the empty flag set. -/
theorem state_session_flags (c : Config) :
    (¬ (StateFlags.contains c.state StateFlags.SESSION = true
        ∧ StateFlags.contains c.state StateFlags.SESSION_EMPTY = true))
  ∧ (∀ s, c.session = some s →
      (s.is_empty = true → c.state = StateFlags.SESSION_EMPTY)
      ∧ (s.is_empty = false → c.state = StateFlags.SESSION))
  ∧ (c.session = none → c.state = StateFlags.empty) := by
  rcases hs : c.session with _ | s
  · refine ⟨?_, ?_, ?_⟩
    · simp [Config.state, hs]
      decide
    · intro s hcontra
      simp [hs] at hcontra
    · intro _
      simp [Config.state, hs]
  · refine ⟨?_, ?_, ?_⟩
    · rcases he : s.is_empty <;>
        · simp [Config.state, hs, he]
          decide
    · intro s2 hs2
      cases hs2
      constructor
      · intro he
        simp [Config.state, hs, he]
        decide
      · intro he
        simp [Config.state, hs, he]
        decide
    · intro hcontra
      cases hcontra

/-- C8 witness: a concrete config with an empty active session yields exactly
the session-empty flag. -/
theorem state_session_flags_witness :
    exampleActiveConfig.state = StateFlags.SESSION_EMPTY :=
  ((state_session_flags exampleActiveConfig).2.1 exampleSession rfl).1 rfl

/-! ## C3 -/

/-- C3: `set_model` fails with a no-model error and mutates nothing when the
identifier does not resolve against the catalog of available chat models; on
success it installs the resolved model as the live model, keeps session
presence unchanged, and the active session (if any) stores exactly the
resolved model identifier, so the two never disagree. -/
theorem set_model_resolution (c : Config) (value : String) :
    (Model.find (list_chat_models c) value = none →
      c.set_model value = (c, some ("No model " ++ value)))
  ∧ (∀ m, Model.find (list_chat_models c) value = some m →
      (c.set_model value).2 = none
      ∧ (c.set_model value).1.model = m
      ∧ (c.set_model value).1.session.isSome = c.session.isSome
      ∧ ((c.set_model value).1.session.all fun s => s.model_id == m.id) = true) := by
  constructor
  · intro hfind
    simp [Config.set_model, hfind]
  · intro m hfind
    rcases hs : c.session with _ | s <;>
      simp [Config.set_model, hfind, hs, Session.set_model]

/-- C3 witness: resolving a present identifier succeeds on a concrete config
with an active session, and the unresolvable identifier fails there. -/
theorem set_model_resolution_witness :
    ((exampleActiveConfig.set_model "openai:gpt-4").2 = none
      ∧ (exampleActiveConfig.set_model "openai:gpt-4").1.model = exampleModel
      ∧ (exampleActiveConfig.set_model "openai:gpt-4").1.session.isSome
          = exampleActiveConfig.session.isSome
      ∧ ((exampleActiveConfig.set_model "openai:gpt-4").1.session.all
          fun s => s.model_id == exampleModel.id) = true)
  ∧ exampleActiveConfig.set_model "missing"
      = (exampleActiveConfig, some ("No model " ++ "missing")) :=
  ⟨(set_model_resolution exampleActiveConfig "openai:gpt-4").2 exampleModel (by rfl),
   (set_model_resolution exampleActiveConfig "missing").1 (by rfl)⟩

/-! ## C1 -/

/-- A call in a sequence of `set_temperature`/`set_top_p` commands. -/
inductive TempOp
  | setT (v : Option ℚ)
  | setP (v : Option ℚ)
deriving DecidableEq, Repr

def applyTempOp (c : Config) (op : TempOp) : Config :=
  match op with
  | TempOp.setT v => c.set_temperature v
  | TempOp.setP v => c.set_top_p v

def applyTempOps (c : Config) (ops : List TempOp) : Config :=
  ops.foldl applyTempOp c

/-- The value of the last `set_temperature` call in the sequence, if any. -/
def lastSetT : List TempOp → Option (Option ℚ)
  | [] => none
  | op :: rest =>
    match lastSetT rest with
    | some v => some v
    | none =>
      match op with
      | TempOp.setT v => some v
      | TempOp.setP _ => none

/-- The value of the last `set_top_p` call in the sequence, if any. -/
def lastSetP : List TempOp → Option (Option ℚ)
  | [] => none
  | op :: rest =>
    match lastSetP rest with
    | some v => some v
    | none =>
      match op with
      | TempOp.setP v => some v
      | TempOp.setT _ => none

lemma applyTempOp_session_isSome (c : Config) (op : TempOp) :
    (applyTempOp c op).session.isSome = c.session.isSome := by
  rcases hs : c.session with _ | s <;>
    cases op <;>
      simp [applyTempOp, Config.set_temperature, Config.set_top_p, hs]

lemma applyTempOp_session_none (c : Config) (op : TempOp)
    (h : c.session = none) : (applyTempOp c op).session = none := by
  cases op <;> simp [applyTempOp, Config.set_temperature, Config.set_top_p, h]

lemma applyTempOp_settings_frame (c : Config) (op : TempOp)
    (h : c.session.isSome = true) :
    (applyTempOp c op).temperature = c.temperature
      ∧ (applyTempOp c op).top_p = c.top_p := by
  rcases hs : c.session with _ | s
  · rw [hs] at h
    cases h
  · cases op <;>
      simp [applyTempOp, Config.set_temperature, Config.set_top_p, hs]

lemma applyTempOp_effective_temperature (c : Config) (op : TempOp) :
    (applyTempOp c op).effective_temperature
      = match op with
        | TempOp.setT v => v
        | TempOp.setP _ => c.effective_temperature := by
  rcases hs : c.session with _ | s <;>
    cases op <;>
      simp [applyTempOp, Config.set_temperature, Config.set_top_p,
        Config.effective_temperature, Session.set_temperature, Session.set_top_p, hs]

lemma applyTempOp_effective_top_p (c : Config) (op : TempOp) :
    (applyTempOp c op).effective_top_p
      = match op with
        | TempOp.setP v => v
        | TempOp.setT _ => c.effective_top_p := by
  rcases hs : c.session with _ | s <;>
    cases op <;>
      simp [applyTempOp, Config.set_temperature, Config.set_top_p,
        Config.effective_top_p, Session.set_temperature, Session.set_top_p, hs]

lemma lastSetT_cons_getD (op : TempOp) (rest : List TempOp) (d : Option ℚ) :
    (lastSetT (op :: rest)).getD d
      = (lastSetT rest).getD
          (match op with | TempOp.setT v => v | TempOp.setP _ => d) := by
  rcases h : lastSetT rest with _ | v <;> cases op <;> simp [lastSetT, h]

lemma lastSetP_cons_getD (op : TempOp) (rest : List TempOp) (d : Option ℚ) :
    (lastSetP (op :: rest)).getD d
      = (lastSetP rest).getD
          (match op with | TempOp.setP v => v | TempOp.setT _ => d) := by
  rcases h : lastSetP rest with _ | v <;> cases op <;> simp [lastSetP, h]

/-- C1: over any sequence of `set_temperature`/`set_top_p` calls, session
presence is preserved; with a session active at call time the Settings-store
copies are never touched, and with no session active no session is created;
the effective value read back afterwards equals the value of the last call
that set it (unchanged if the sequence never set it). -/
theorem temperature_top_p_last_write_routing (c : Config) (ops : List TempOp) :
    ((applyTempOps c ops).session.isSome = c.session.isSome)
  ∧ (c.session.isSome = true →
      (applyTempOps c ops).temperature = c.temperature
      ∧ (applyTempOps c ops).top_p = c.top_p)
  ∧ (c.session = none → (applyTempOps c ops).session = none)
  ∧ ((applyTempOps c ops).effective_temperature
      = (lastSetT ops).getD c.effective_temperature)
  ∧ ((applyTempOps c ops).effective_top_p
      = (lastSetP ops).getD c.effective_top_p) := by
  induction ops generalizing c with
  | nil =>
    refine ⟨rfl, fun _ => ⟨rfl, rfl⟩, fun h => h, ?_, ?_⟩ <;>
      simp [applyTempOps, lastSetT, lastSetP]
  | cons op rest ih =>
    have hstep : applyTempOps c (op :: rest) = applyTempOps (applyTempOp c op) rest := rfl
    obtain ⟨ih1, ih2, ih3, ih4, ih5⟩ := ih (applyTempOp c op)
    refine ⟨?_, ?_, ?_, ?_, ?_⟩
    · rw [hstep, ih1, applyTempOp_session_isSome]
    · intro h
      have hop : (applyTempOp c op).session.isSome = true := by
        rw [applyTempOp_session_isSome, h]
      obtain ⟨hf1, hf2⟩ := applyTempOp_settings_frame c op h
      obtain ⟨hi1, hi2⟩ := ih2 hop
      rw [hstep, hi1, hi2, hf1, hf2]
      exact ⟨rfl, rfl⟩
    · intro h
      rw [hstep]
      exact ih3 (applyTempOp_session_none c op h)
    · rw [hstep, ih4, lastSetT_cons_getD, applyTempOp_effective_temperature]
    · rw [hstep, ih5, lastSetP_cons_getD, applyTempOp_effective_top_p]

/-- C1 witness: on a concrete config with an active session, a sequence of
three calls reads back the last temperature and top-p set, never touching the
Settings copies. -/
theorem temperature_top_p_last_write_routing_witness :
    (applyTempOps exampleActiveConfig
        [TempOp.setT (some (7 / 10)), TempOp.setP (some (9 / 10)),
          TempOp.setT (some (1 / 2))]).effective_temperature = some (1 / 2)
  ∧ (applyTempOps exampleActiveConfig
        [TempOp.setT (some (7 / 10)), TempOp.setP (some (9 / 10)),
          TempOp.setT (some (1 / 2))]).temperature
      = exampleActiveConfig.temperature := by
  obtain ⟨h1, h2, h3, h4, h5⟩ :=
    temperature_top_p_last_write_routing exampleActiveConfig
      [TempOp.setT (some (7 / 10)), TempOp.setP (some (9 / 10)),
        TempOp.setT (some (1 / 2))]
  exact ⟨by rw [h4]; rfl, (h2 rfl).1⟩

/-! ## C4 -/

/-- A persisted session whose stored model identifier no longer resolves
against the catalog. -/
def staleSession : Session :=
  { exampleSession with model_id := "removed:model" }

def staleFS : FS :=
  { session_files := [("work", staleSession)], messages_file := none }

/-- C4 counterexample: loading the on-disk session "work" whose stored model
identifier "removed:model" is unresolvable makes `use_session` fail, yet the
deserialized session is left installed as the active session — the operation
is not an atomic no-op. -/
theorem use_session_unresolvable_not_atomic :
    ((Config.use_session exampleConfig staleFS (some "work") false).2.2
        = some ("No model " ++ "removed:model"))
  ∧ ((Config.use_session exampleConfig staleFS (some "work") false).1.session
        = some (Session.load "work" staleSession)) := by
  constructor <;> rfl

/-- C4 amended: when the on-disk session exists but its stored model
identifier cannot be resolved, `use_session` fails with the no-model error
and leaves the live model, the settings and the file system unchanged, but
the loaded session is left installed as the active session (the installation
happens before the failing model resolution). -/
theorem use_session_unresolvable_model (c : Config) (fs : FS) (name : String)
    (ans : Bool) (stored : Session)
    (h1 : c.session = none)
    (h2 : fs.session_files.lookup name = some stored)
    (h3 : Model.find (list_chat_models c) stored.model_id = none) :
    Config.use_session c fs (some name) ans
      = ({ c with session := some (Session.load name stored) }, fs,
          some ("No model " ++ stored.model_id)) := by
  simp only [list_chat_models] at h3
  simp [Config.use_session, h1, h2, Config.set_model, list_chat_models,
    Session.load, h3]

/-- C4 witness for the amended claim at the concrete stale-session state. -/
theorem use_session_unresolvable_model_witness :
    Config.use_session exampleConfig staleFS (some "work") false
      = ({ exampleConfig with session := some (Session.load "work" staleSession) },
          staleFS, some ("No model " ++ staleSession.model_id)) :=
  use_session_unresolvable_model exampleConfig staleFS "work" false staleSession
    rfl rfl rfl

/-! ## C5 -/

/-- C5: `exit_session` with an active session discards the session object
unconditionally, runs the persistence pass, clears the last-message cache and
re-resolves the snapshotted model identifier to restore the pre-session
model; when that identifier no longer resolves the error is surfaced (not
swallowed) while the session is still gone and the cache still cleared. -/
theorem exit_session_discards_and_restores (c : Config) (fs : FS) (s : Session)
    (h : c.session = some s) :
    ((Config.exit_session c fs).1.session = none)
  ∧ ((Config.exit_session c fs).1.last_message = none)
  ∧ ((Config.exit_session c fs).2.1 = s.exit fs)
  ∧ (∀ m, Model.find (list_chat_models c) c.model_id = some m →
      (Config.exit_session c fs).1.model = m
      ∧ (Config.exit_session c fs).2.2 = none)
  ∧ (Model.find (list_chat_models c) c.model_id = none →
      (Config.exit_session c fs).1.model = c.model
      ∧ (Config.exit_session c fs).2.2 = some ("No model " ++ c.model_id)) := by
  refine ⟨?_, ?_, ?_, ?_, ?_⟩
  · rcases hfind : Model.find c.clients c.model_id with _ | m <;>
      simp [Config.exit_session, h, Config.restore_model, Config.set_model,
        list_chat_models, hfind]
  · rcases hfind : Model.find c.clients c.model_id with _ | m <;>
      simp [Config.exit_session, h, Config.restore_model, Config.set_model,
        list_chat_models, hfind]
  · rcases hfind : Model.find c.clients c.model_id with _ | m <;>
      simp [Config.exit_session, h, Config.restore_model, Config.set_model,
        list_chat_models, hfind]
  · intro m hfind
    simp only [list_chat_models] at hfind
    constructor <;>
      simp [Config.exit_session, h, Config.restore_model, Config.set_model,
        list_chat_models, hfind]
  · intro hfind
    simp only [list_chat_models] at hfind
    constructor <;>
      simp [Config.exit_session, h, Config.restore_model, Config.set_model,
        list_chat_models, hfind]

/-- C5 witness: exiting the concrete active session discards it, clears the
cache, and restores the still-resolvable pre-session model without error. -/
theorem exit_session_discards_and_restores_witness :
    ((Config.exit_session exampleActiveConfig exampleFS).1.session = none)
  ∧ ((Config.exit_session exampleActiveConfig exampleFS).1.last_message = none)
  ∧ ((Config.exit_session exampleActiveConfig exampleFS).1.model = exampleModel)
  ∧ ((Config.exit_session exampleActiveConfig exampleFS).2.2 = none) := by
  obtain ⟨h1, h2, _h3, h4, _h5⟩ :=
    exit_session_discards_and_restores exampleActiveConfig exampleFS
      exampleSession rfl
  obtain ⟨h6, h7⟩ := h4 exampleModel rfl
  exact ⟨h1, h2, h6, h7⟩

/-! ## C6 -/

/-- C6: `save_message` always updates the last-message cache to the given
pair; with an active session it delegates to the session's add-message and
leaves the file system untouched; with no session it appends a timestamped
transcript entry to the message log exactly when the save-to-log setting is
enabled and the output is non-empty. -/
theorem save_message_spec (c : Config) (fs : FS) (ts : String) (input : Input)
    (output : String) (tr : List String) :
    ((Config.save_message c fs ts input output tr).1.last_message
        = some (input, output))
  ∧ (∀ s, c.session = some s →
      (Config.save_message c fs ts input output tr).1.session
          = some (s.add_message input output)
      ∧ (Config.save_message c fs ts input output tr).2 = fs)
  ∧ (c.session = none →
      (Config.save_message c fs ts input output tr).2.log_entries
        = fs.log_entries
          ++ (if c.save = true ∧ output ≠ "" then
                [Config.message_entry ts input output]
              else [])) := by
  refine ⟨?_, ?_, ?_⟩
  · rcases hs : c.session with _ | s <;>
      rcases hsave : c.save <;>
        rcases ho : output.isEmpty <;>
          simp [Config.save_message, Input.clear_patch_text, hs, hsave, ho]
  · intro s hs
    constructor <;> simp [Config.save_message, Input.clear_patch_text, hs]
  · intro hs
    rcases hsave : c.save
    · simp [Config.save_message, Input.clear_patch_text, hs, hsave]
    · by_cases ho : output = ""
      · subst ho
        have he : "".isEmpty = true := rfl
        simp [Config.save_message, Input.clear_patch_text, hs, hsave, he,
          FS.open_message_file, FS.log_entries]
      · have ho2 : output.isEmpty = false := by
          rcases h : output.isEmpty
          · rfl
          · exact absurd ((String.isEmpty_iff output).mp h) ho
        simp [Config.save_message, Input.clear_patch_text, hs, hsave, ho, ho2,
          FS.append_log, FS.open_message_file, FS.log_entries]

/-- C6 witness: on a concrete no-session config with save enabled, the cache
is updated and exactly one transcript entry is appended. -/
theorem save_message_spec_witness :
    ((Config.save_message exampleConfig exampleFS "2024" exampleInput "hi" []).1.last_message
        = some (exampleInput, "hi"))
  ∧ ((Config.save_message exampleConfig exampleFS "2024" exampleInput "hi" []).2.log_entries
        = exampleFS.log_entries
            ++ (if exampleConfig.save = true ∧ "hi" ≠ "" then
                  [Config.message_entry "2024" exampleInput "hi"]
                else [])) := by
  obtain ⟨h1, _h2, h3⟩ :=
    save_message_spec exampleConfig exampleFS "2024" exampleInput "hi" []
  exact ⟨h1, h3 rfl⟩

/-! ## C10 -/

/-- C10: with no active session and the save-to-log setting enabled,
`save_message` creates/opens the message log file even when the output is
empty: afterwards the file exists and holds exactly the prior entries, with
nothing appended. -/
theorem save_message_creates_log_file (c : Config) (fs : FS) (ts : String)
    (input : Input) (tr : List String)
    (h1 : c.session = none) (h2 : c.save = true) :
    (Config.save_message c fs ts input "" tr).2.messages_file
      = some fs.log_entries := by
  simp [Config.save_message, Input.clear_patch_text, h1, h2,
    FS.open_message_file, FS.log_entries, String.isEmpty]

/-- C10 witness: on the concrete config the log file, absent beforehand, is
created empty by a `save_message` call with empty output. -/
theorem save_message_creates_log_file_witness :
    exampleFS.messages_file = none
  ∧ (Config.save_message exampleConfig exampleFS "2024" exampleInput "" []).2.messages_file
      = some exampleFS.log_entries :=
  ⟨rfl, save_message_creates_log_file exampleConfig exampleFS "2024" exampleInput []
      rfl rfl⟩

/-! ## C7 -/

/-- C7: for every optional key accepted by `update` (temperature, top_p,
save_session, max_output_tokens) the literal value "null" clears the setting
to absent without error; `update "save_session null"` clears the session-level
toggle (leaving the Settings toggle untouched) when a session is active, and
the Settings-level toggle otherwise. -/
theorem update_null_clears (c : Config) :
    ((c.update "temperature null").2 = none
      ∧ (c.update "temperature null").1.effective_temperature = none)
  ∧ ((c.update "top_p null").2 = none
      ∧ (c.update "top_p null").1.effective_top_p = none)
  ∧ ((c.update "max_output_tokens null").2 = none
      ∧ (c.update "max_output_tokens null").1.model.max_output_tokens = none)
  ∧ ((c.update "save_session null").2 = none)
  ∧ (∀ s, c.session = some s →
      (c.update "save_session null").1.session = some (s.set_save_session none)
      ∧ (c.update "save_session null").1.save_session = c.save_session)
  ∧ (c.session = none → (c.update "save_session null").1.save_session = none) := by
  have hT : c.update "temperature null" = (c.set_temperature none, none) := rfl
  have hP : c.update "top_p null" = (c.set_top_p none, none) := rfl
  have hM : c.update "max_output_tokens null"
      = ({ c with model := c.model.set_max_tokens none true }, none) := rfl
  have hS : c.update "save_session null" = (c.set_save_session none, none) := rfl
  refine ⟨⟨?_, ?_⟩, ⟨?_, ?_⟩, ⟨?_, ?_⟩, ?_, ?_, ?_⟩
  · rw [hT]
  · rw [hT]
    rcases hs : c.session with _ | s <;>
      simp [Config.set_temperature, Config.effective_temperature,
        Session.set_temperature, hs]
  · rw [hP]
  · rw [hP]
    rcases hs : c.session with _ | s <;>
      simp [Config.set_top_p, Config.effective_top_p, Session.set_top_p, hs]
  · rw [hM]
  · rw [hM]
    rfl
  · rw [hS]
  · intro s hs
    rw [hS]
    constructor <;> simp [Config.set_save_session, hs]
  · intro hs
    rw [hS]
    simp [Config.set_save_session, hs]

/-- C7 witness: on a concrete active-session config with the Settings toggle
set, "save_session null" clears the session toggle and keeps the Settings
toggle. -/
theorem update_null_clears_witness :
    (({ exampleActiveConfig with save_session := some true } :
        Config).update "save_session null").1.session
        = some (exampleSession.set_save_session none)
  ∧ (({ exampleActiveConfig with save_session := some true } :
        Config).update "save_session null").1.save_session = some true :=
  ((update_null_clears { exampleActiveConfig with save_session := some true }).2.2.2.2.1
    exampleSession rfl)

/-! ## C9 -/

lemma lookup_filter_ne (m : List (String × String)) (k k2 : String)
    (h : (k2 == k) = false) :
    (m.filter (fun p => p.1 != k)).lookup k2 = m.lookup k2 := by
  have hk : k ≠ k2 := by
    intro e
    subst e
    simp at h
  induction m with
  | nil => rfl
  | cons hd tl ih =>
    rcases hd with ⟨a, b⟩
    by_cases ha : a = k
    · subst ha
      have h1 : (a != a) = false := by simp
      simp [List.filter, List.lookup, h1, h, ih]
    · have h1 : (a != k) = true := bne_iff_ne.mpr ha
      by_cases ha2 : a = k2
      · subst ha2
        simp [List.filter, List.lookup, h1]
      · have h2 : (k2 == a) = false := beq_eq_false_iff_ne.mpr (fun e => ha2 e.symm)
        simp [List.filter, List.lookup, h1, h2, ih]

lemma lookup_ctx_insert_self (m : List (String × String)) (k v : String) :
    (Config.ctx_insert m k v).lookup k = some v := by
  simp [Config.ctx_insert, List.lookup]

lemma lookup_ctx_insert_ne (m : List (String × String)) (k k2 v : String)
    (h : (k2 == k) = false) :
    (Config.ctx_insert m k v).lookup k2 = m.lookup k2 := by
  simp [Config.ctx_insert, List.lookup, h, lookup_filter_ne m k k2 h]

lemma lookup_cond_insert_self (b : Bool) (m : List (String × String)) (k v : String) :
    (if b then Config.ctx_insert m k v else m).lookup k
      = if b then some v else m.lookup k := by
  cases b <;> simp [lookup_ctx_insert_self]

lemma lookup_cond_insert_ne (b : Bool) (m : List (String × String)) (k k2 v : String)
    (h : (k2 == k) = false) :
    (if b then Config.ctx_insert m k v else m).lookup k2 = m.lookup k2 := by
  cases b <;> simp [lookup_ctx_insert_ne _ _ _ _ h]

lemma lookup_nil_str (k : String) :
    (([] : List (String × String)).lookup k) = none := rfl

/-- A config whose Settings temperature is absent while the active session
overlay carries temperature one half. -/
def overlayConfig : Config :=
  { exampleConfig with
      temperature := none
      session := some { exampleSession with temperature := some (1 / 2) } }

/-- C9 counterexample: with Settings temperature absent and the active
session holding the non-zero temperature one half, the effective temperature
per the overlay model is set and non-zero, yet the generated prompt context
contains no temperature key: the builder reads the Settings copy, not the
session overlay. -/
theorem generate_prompt_context_ignores_session_overlay :
    overlayConfig.effective_temperature = some (1 / 2)
  ∧ ((1 : ℚ) / 2 ≠ 0)
  ∧ (Config.generate_prompt_context overlayConfig).lookup "temperature" = none := by
  refine ⟨rfl, by norm_num, ?_⟩
  rfl

/-- All ordered pairs of distinct prompt-context keys compare unequal. -/
lemma key_pair_beq :
    (("model" : String) == "client_name") = false
  ∧ (("model" : String) == "model_name") = false
  ∧ (("model" : String) == "max_input_tokens") = false
  ∧ (("model" : String) == "temperature") = false
  ∧ (("model" : String) == "top_p") = false
  ∧ (("model" : String) == "save") = false
  ∧ (("model" : String) == "session") = false
  ∧ (("model" : String) == "dirty") = false
  ∧ (("model" : String) == "consume_tokens") = false
  ∧ (("model" : String) == "consume_percent") = false
  ∧ (("model" : String) == "user_messages_len") = false
  ∧ (("client_name" : String) == "model") = false
  ∧ (("client_name" : String) == "model_name") = false
  ∧ (("client_name" : String) == "max_input_tokens") = false
  ∧ (("client_name" : String) == "temperature") = false
  ∧ (("client_name" : String) == "top_p") = false
  ∧ (("client_name" : String) == "save") = false
  ∧ (("client_name" : String) == "session") = false
  ∧ (("client_name" : String) == "dirty") = false
  ∧ (("client_name" : String) == "consume_tokens") = false
  ∧ (("client_name" : String) == "consume_percent") = false
  ∧ (("client_name" : String) == "user_messages_len") = false
  ∧ (("model_name" : String) == "model") = false
  ∧ (("model_name" : String) == "client_name") = false
  ∧ (("model_name" : String) == "max_input_tokens") = false
  ∧ (("model_name" : String) == "temperature") = false
  ∧ (("model_name" : String) == "top_p") = false
  ∧ (("model_name" : String) == "save") = false
  ∧ (("model_name" : String) == "session") = false
  ∧ (("model_name" : String) == "dirty") = false
  ∧ (("model_name" : String) == "consume_tokens") = false
  ∧ (("model_name" : String) == "consume_percent") = false
  ∧ (("model_name" : String) == "user_messages_len") = false
  ∧ (("max_input_tokens" : String) == "model") = false
  ∧ (("max_input_tokens" : String) == "client_name") = false
  ∧ (("max_input_tokens" : String) == "model_name") = false
  ∧ (("max_input_tokens" : String) == "temperature") = false
  ∧ (("max_input_tokens" : String) == "top_p") = false
  ∧ (("max_input_tokens" : String) == "save") = false
  ∧ (("max_input_tokens" : String) == "session") = false
  ∧ (("max_input_tokens" : String) == "dirty") = false
  ∧ (("max_input_tokens" : String) == "consume_tokens") = false
  ∧ (("max_input_tokens" : String) == "consume_percent") = false
  ∧ (("max_input_tokens" : String) == "user_messages_len") = false
  ∧ (("temperature" : String) == "model") = false
  ∧ (("temperature" : String) == "client_name") = false
  ∧ (("temperature" : String) == "model_name") = false
  ∧ (("temperature" : String) == "max_input_tokens") = false
  ∧ (("temperature" : String) == "top_p") = false
  ∧ (("temperature" : String) == "save") = false
  ∧ (("temperature" : String) == "session") = false
  ∧ (("temperature" : String) == "dirty") = false
  ∧ (("temperature" : String) == "consume_tokens") = false
  ∧ (("temperature" : String) == "consume_percent") = false
  ∧ (("temperature" : String) == "user_messages_len") = false
  ∧ (("top_p" : String) == "model") = false
  ∧ (("top_p" : String) == "client_name") = false
  ∧ (("top_p" : String) == "model_name") = false
  ∧ (("top_p" : String) == "max_input_tokens") = false
  ∧ (("top_p" : String) == "temperature") = false
  ∧ (("top_p" : String) == "save") = false
  ∧ (("top_p" : String) == "session") = false
  ∧ (("top_p" : String) == "dirty") = false
  ∧ (("top_p" : String) == "consume_tokens") = false
  ∧ (("top_p" : String) == "consume_percent") = false
  ∧ (("top_p" : String) == "user_messages_len") = false
  ∧ (("save" : String) == "model") = false
  ∧ (("save" : String) == "client_name") = false
  ∧ (("save" : String) == "model_name") = false
  ∧ (("save" : String) == "max_input_tokens") = false
  ∧ (("save" : String) == "temperature") = false
  ∧ (("save" : String) == "top_p") = false
  ∧ (("save" : String) == "session") = false
  ∧ (("save" : String) == "dirty") = false
  ∧ (("save" : String) == "consume_tokens") = false
  ∧ (("save" : String) == "consume_percent") = false
  ∧ (("save" : String) == "user_messages_len") = false
  ∧ (("session" : String) == "model") = false
  ∧ (("session" : String) == "client_name") = false
  ∧ (("session" : String) == "model_name") = false
  ∧ (("session" : String) == "max_input_tokens") = false
  ∧ (("session" : String) == "temperature") = false
  ∧ (("session" : String) == "top_p") = false
  ∧ (("session" : String) == "save") = false
  ∧ (("session" : String) == "dirty") = false
  ∧ (("session" : String) == "consume_tokens") = false
  ∧ (("session" : String) == "consume_percent") = false
  ∧ (("session" : String) == "user_messages_len") = false
  ∧ (("dirty" : String) == "model") = false
  ∧ (("dirty" : String) == "client_name") = false
  ∧ (("dirty" : String) == "model_name") = false
  ∧ (("dirty" : String) == "max_input_tokens") = false
  ∧ (("dirty" : String) == "temperature") = false
  ∧ (("dirty" : String) == "top_p") = false
  ∧ (("dirty" : String) == "save") = false
  ∧ (("dirty" : String) == "session") = false
  ∧ (("dirty" : String) == "consume_tokens") = false
  ∧ (("dirty" : String) == "consume_percent") = false
  ∧ (("dirty" : String) == "user_messages_len") = false
  ∧ (("consume_tokens" : String) == "model") = false
  ∧ (("consume_tokens" : String) == "client_name") = false
  ∧ (("consume_tokens" : String) == "model_name") = false
  ∧ (("consume_tokens" : String) == "max_input_tokens") = false
  ∧ (("consume_tokens" : String) == "temperature") = false
  ∧ (("consume_tokens" : String) == "top_p") = false
  ∧ (("consume_tokens" : String) == "save") = false
  ∧ (("consume_tokens" : String) == "session") = false
  ∧ (("consume_tokens" : String) == "dirty") = false
  ∧ (("consume_tokens" : String) == "consume_percent") = false
  ∧ (("consume_tokens" : String) == "user_messages_len") = false
  ∧ (("consume_percent" : String) == "model") = false
  ∧ (("consume_percent" : String) == "client_name") = false
  ∧ (("consume_percent" : String) == "model_name") = false
  ∧ (("consume_percent" : String) == "max_input_tokens") = false
  ∧ (("consume_percent" : String) == "temperature") = false
  ∧ (("consume_percent" : String) == "top_p") = false
  ∧ (("consume_percent" : String) == "save") = false
  ∧ (("consume_percent" : String) == "session") = false
  ∧ (("consume_percent" : String) == "dirty") = false
  ∧ (("consume_percent" : String) == "consume_tokens") = false
  ∧ (("consume_percent" : String) == "user_messages_len") = false
  ∧ (("user_messages_len" : String) == "model") = false
  ∧ (("user_messages_len" : String) == "client_name") = false
  ∧ (("user_messages_len" : String) == "model_name") = false
  ∧ (("user_messages_len" : String) == "max_input_tokens") = false
  ∧ (("user_messages_len" : String) == "temperature") = false
  ∧ (("user_messages_len" : String) == "top_p") = false
  ∧ (("user_messages_len" : String) == "save") = false
  ∧ (("user_messages_len" : String) == "session") = false
  ∧ (("user_messages_len" : String) == "dirty") = false
  ∧ (("user_messages_len" : String) == "consume_tokens") = false
  ∧ (("user_messages_len" : String) == "consume_percent") = false :=
  ⟨rfl, rfl, rfl, rfl, rfl, rfl, rfl, rfl, rfl, rfl, rfl, rfl, rfl, rfl, rfl, rfl, rfl, rfl, rfl, rfl, rfl, rfl, rfl, rfl, rfl, rfl, rfl, rfl, rfl, rfl, rfl, rfl, rfl, rfl, rfl, rfl, rfl, rfl, rfl, rfl, rfl, rfl, rfl, rfl, rfl, rfl, rfl, rfl, rfl, rfl, rfl, rfl, rfl, rfl, rfl, rfl, rfl, rfl, rfl, rfl, rfl, rfl, rfl, rfl, rfl, rfl, rfl, rfl, rfl, rfl, rfl, rfl, rfl, rfl, rfl, rfl, rfl, rfl, rfl, rfl, rfl, rfl, rfl, rfl, rfl, rfl, rfl, rfl, rfl, rfl, rfl, rfl, rfl, rfl, rfl, rfl, rfl, rfl, rfl, rfl, rfl, rfl, rfl, rfl, rfl, rfl, rfl, rfl, rfl, rfl, rfl, rfl, rfl, rfl, rfl, rfl, rfl, rfl, rfl, rfl, rfl, rfl, rfl, rfl, rfl, rfl, rfl, rfl, rfl, rfl, rfl, rfl⟩

/-- C9 amended: the prompt-context builder is a pure derivation that always
includes the model id, client name, model name and maximum input-token count;
it includes the Settings-store temperature and top-p (not the session
overlay values, even when a session is active) only when set and non-zero,
the save flag only when true, and the session name, dirty flag,
consumed-token count, percent-of-window and user-message count exactly when a
session is active. -/
theorem generate_prompt_context_spec (c : Config) :
    ((Config.generate_prompt_context c).lookup "model" = some c.model.id)
  ∧ ((Config.generate_prompt_context c).lookup "client_name"
      = some c.model.client_name)
  ∧ ((Config.generate_prompt_context c).lookup "model_name" = some c.model.name)
  ∧ ((Config.generate_prompt_context c).lookup "max_input_tokens"
      = some (toString (c.model.max_input_tokens.getD 0)))
  ∧ ((Config.generate_prompt_context c).lookup "temperature"
      = match c.temperature with
        | some t => if t != 0 then some (toString t) else none
        | none => none)
  ∧ ((Config.generate_prompt_context c).lookup "top_p"
      = match c.top_p with
        | some p => if p != 0 then some (toString p) else none
        | none => none)
  ∧ ((Config.generate_prompt_context c).lookup "save"
      = if c.save then some "true" else none)
  ∧ ((Config.generate_prompt_context c).lookup "session"
      = c.session.map Session.name)
  ∧ ((Config.generate_prompt_context c).lookup "dirty"
      = c.session.map (fun s => toString s.dirty))
  ∧ ((Config.generate_prompt_context c).lookup "consume_tokens"
      = c.session.map (fun s => toString s.tokens_and_percent.1))
  ∧ ((Config.generate_prompt_context c).lookup "consume_percent"
      = c.session.map (fun s => toString s.tokens_and_percent.2))
  ∧ ((Config.generate_prompt_context c).lookup "user_messages_len"
      = c.session.map (fun s => toString s.user_messages_len)) := by
  obtain ⟨mid, temp, topp, sv, svs, fc, cls, sess, mdl, lm⟩ := c
  rcases temp with _ | t <;>
    rcases topp with _ | p <;>
      rcases sess with _ | s <;>
        refine ⟨?_, ?_, ?_, ?_, ?_, ?_, ?_, ?_, ?_, ?_, ?_, ?_⟩ <;>
          simp only [Config.generate_prompt_context, lookup_ctx_insert_self,
            lookup_ctx_insert_ne, lookup_cond_insert_self,
            lookup_cond_insert_ne, key_pair_beq, lookup_nil_str,
            Option.map_some', Option.map_none']
